import Mathlib

/-!
Shallow embedding of `in_path.lanai.page_verification.py`: the expected-row
builders for in-path rule tables (Auto Discover, Fixed-Target, Pass Through,
Discard, Deny), the shared row-head builder, the VLAN translator, and the
dispatch function `expected_rule`.

Python values flowing through the keyword bag are modelled by the inductive
type `Value` (None, str, int, bool); a Python exception is modelled as the
`Except.error` branch of a result; the informational log emitted by the
dispatch is returned explicitly as a list of messages.
-/

namespace PageVerification

/-- A dynamic Python value as it appears in the keyword bag: `None`, a
string, an integer, or a boolean. -/
inductive Value where
  | none : Value
  | str : String → Value
  | int : Int → Value
  | bool : Bool → Value
  deriving DecidableEq

/-- Python `str(v)` on a `Value`. -/
def pyStr : Value → String
  | Value.none => "None"
  | Value.str s => s
  | Value.int n => toString n
  | Value.bool b => if b then "True" else "False"

/-- Python truthiness of a `Value` (`bool(v)`). -/
def truthy : Value → Bool
  | Value.none => false
  | Value.str s => s ≠ ""
  | Value.int n => n ≠ 0
  | Value.bool b => b

/-- The keyword bag `**kwords`: an association list from keyword names to
values (each key occurs at most once in any actual Python call). -/
abbrev Kw := List (String × Value)

/-- Dictionary lookup, first binding wins. -/
def kwLookup : Kw → String → Option Value
  | [], _ => Option.none
  | kv :: rest, k => if kv.1 = k then Option.some kv.2 else kwLookup rest k

/-- Python keyword-argument binding: the bound value when the key is
present, the declared default otherwise. -/
def kwGet (kwords : Kw) (k : String) (d : Value) : Value :=
  (kwLookup kwords k).getD d

/-- ASCII lower-casing of one byte, as Python 2 `re.IGNORECASE` performs on
`str` data. -/
def asciiLower (c : Char) : Char :=
  if 'A' ≤ c ∧ c ≤ 'Z' then Char.ofNat (c.toNat + 32) else c

/-- ASCII upper-casing of one byte. -/
def asciiUpper (c : Char) : Char :=
  if 'a' ≤ c ∧ c ≤ 'z' then Char.ofNat (c.toNat - 32) else c

/-- Whether `re.compile(r'\Aall\Z', re.IGNORECASE).match(s)` succeeds: the
whole string case-insensitively equals `"all"`. -/
def portIsAll (s : String) : Bool :=
  String.mk (s.data.map asciiLower) = "all"

/-- The error message of the `TypeError` Python 2 `re` raises when `match`
is applied to a non-string. -/
def typeErrorMatch : String := "TypeError: expected string or buffer"

/-- `patc.match(v)` on a dynamic value: succeeds with the match outcome on a
string, raises a `TypeError` on anything else. -/
def reMatchAll : Value → Except String Bool
  | Value.str s => Except.ok (portIsAll s)
  | _ => Except.error typeErrorMatch

/-- `string.capitalize(s)` of Python 2: first byte upper-cased, the rest
lower-cased (ASCII). -/
def capitalize (s : String) : String :=
  match s.data with
  | [] => ""
  | c :: cs => String.mk (asciiUpper c :: cs.map asciiLower)

/-- `translate_VLAN`: `None` becomes the literal `"All"`, any other value is
string-coerced and capitalized. -/
def translate_VLAN (vlan : Value) : String :=
  if vlan = Value.none then "All" else capitalize (pyStr vlan)

/-- A row: an ordered list of cell-groups, each cell-group a list of cells
(display values). -/
abbrev Row := List (List Value)

/-- `__expected_rule_prefix`: the four leading cell-groups shared by every
rule type.  Ports equal (case-insensitively) to `"all"` are replaced by
`"*"`; the regex match raises a `TypeError` when the port is not a string,
the source port being matched first. -/
def expectedRulePrefix (type_of_rule : String) (position source_subnet
    source_port destination_subnet destination_port : Value) :
    Except String Row :=
  match reMatchAll source_port with
  | Except.error e => Except.error e
  | Except.ok msource =>
    match reMatchAll destination_port with
    | Except.error e => Except.error e
    | Except.ok mdestination =>
      let sp := if msource then Value.str "*" else source_port
      let dp := if mdestination then Value.str "*" else destination_port
      Except.ok [[Value.str (pyStr position)],
                 [Value.str type_of_rule],
                 [Value.str (pyStr source_subnet ++ ":" ++ pyStr sp)],
                 [Value.str (pyStr destination_subnet ++ ":" ++ pyStr dp)]]

/-- `expected_auto_discover_rule`, with its named parameters in source
order.  The position falls back to `number_of_rules` when `None`; the
optimization policy `"Compression-Only"` is abbreviated; kickoff renders as
`"Yes"`/`"No"` from the truthiness of `auto_kickoff`. -/
def expected_auto_discover_rule (number_of_rules position source_subnet
    source_port destination_subnet destination_port vlan_id
    preoptimization_policy optimization_policy latency_optimization_policy
    protocol auto_kickoff status cloud_acceleration : Value) :
    Except String Row :=
  let position := if position = Value.none then number_of_rules else position
  match expectedRulePrefix "Auto Discover" position source_subnet source_port
      destination_subnet destination_port with
  | Except.error e => Except.error e
  | Except.ok expected_row =>
    let optimization_policy :=
      if optimization_policy = Value.str "Compression-Only"
      then Value.str "Compr-Only" else optimization_policy
    let kickoff :=
      if auto_kickoff ≠ Value.none ∧ truthy auto_kickoff
      then Value.str "Yes" else Value.str "No"
    Except.ok (expected_row ++
      [[Value.str (translate_VLAN vlan_id)],
       [protocol],
       [preoptimization_policy],
       [latency_optimization_policy],
       [optimization_policy],
       [cloud_acceleration],
       [kickoff],
       [status]])

/-- `expected_fixed_target_rule`: as Auto Discover, except that
`cloud_acceleration` is overwritten with the placeholder before the row is
extended. -/
def expected_fixed_target_rule (number_of_rules position source_subnet
    source_port destination_subnet destination_port vlan_id
    preoptimization_policy optimization_policy latency_optimization_policy
    protocol auto_kickoff status cloud_acceleration : Value) :
    Except String Row :=
  let position := if position = Value.none then number_of_rules else position
  match expectedRulePrefix "Fixed-Target" position source_subnet source_port
      destination_subnet destination_port with
  | Except.error e => Except.error e
  | Except.ok expected_row =>
    let optimization_policy :=
      if optimization_policy = Value.str "Compression-Only"
      then Value.str "Compr-Only" else optimization_policy
    let kickoff :=
      if auto_kickoff ≠ Value.none ∧ truthy auto_kickoff
      then Value.str "Yes" else Value.str "No"
    let cloud_acceleration := Value.str "--"
    Except.ok (expected_row ++
      [[Value.str (translate_VLAN vlan_id)],
       [protocol],
       [preoptimization_policy],
       [latency_optimization_policy],
       [optimization_policy],
       [cloud_acceleration],
       [kickoff],
       [status]])

/-- `expected_pass_through_rule`: the three policy columns and kickoff are
hard-set to the placeholder; `cloud_acceleration` keeps its parameter
value. -/
def expected_pass_through_rule (number_of_rules position source_subnet
    source_port destination_subnet destination_port vlan_id protocol status
    cloud_acceleration : Value) : Except String Row :=
  let position := if position = Value.none then number_of_rules else position
  match expectedRulePrefix "Pass Through" position source_subnet source_port
      destination_subnet destination_port with
  | Except.error e => Except.error e
  | Except.ok expected_row =>
    let preoptimization_policy := Value.str "--"
    let optimization_policy := Value.str "--"
    let latency_optimization_policy := Value.str "--"
    let kickoff := Value.str "--"
    Except.ok (expected_row ++
      [[Value.str (translate_VLAN vlan_id)],
       [protocol],
       [preoptimization_policy],
       [latency_optimization_policy],
       [optimization_policy],
       [cloud_acceleration],
       [kickoff],
       [status]])

/-- `expected_discard_rule`: every optional semantic column including cloud
acceleration is hard-set to the placeholder. -/
def expected_discard_rule (number_of_rules position source_subnet
    source_port destination_subnet destination_port vlan_id protocol status
    cloud_acceleration : Value) : Except String Row :=
  let position := if position = Value.none then number_of_rules else position
  match expectedRulePrefix "Discard" position source_subnet source_port
      destination_subnet destination_port with
  | Except.error e => Except.error e
  | Except.ok expected_row =>
    let preoptimization_policy := Value.str "--"
    let optimization_policy := Value.str "--"
    let latency_optimization_policy := Value.str "--"
    let kickoff := Value.str "--"
    let cloud_acceleration := Value.str "--"
    Except.ok (expected_row ++
      [[Value.str (translate_VLAN vlan_id)],
       [protocol],
       [preoptimization_policy],
       [latency_optimization_policy],
       [optimization_policy],
       [cloud_acceleration],
       [kickoff],
       [status]])

/-- `expected_deny_rule`: same forced-placeholder layout as Discard; the
`type_of_rule` parameter is accepted but unused. -/
def expected_deny_rule (type_of_rule position source_subnet
    destination_subnet destination_port vlan_id number_of_rules protocol
    status source_port cloud_acceleration : Value) : Except String Row :=
  let _ := type_of_rule
  let position := if position = Value.none then number_of_rules else position
  match expectedRulePrefix "Deny" position source_subnet source_port
      destination_subnet destination_port with
  | Except.error e => Except.error e
  | Except.ok expected_row =>
    let preoptimization_policy := Value.str "--"
    let optimization_policy := Value.str "--"
    let latency_optimization_policy := Value.str "--"
    let kickoff := Value.str "--"
    let cloud_acceleration := Value.str "--"
    Except.ok (expected_row ++
      [[Value.str (translate_VLAN vlan_id)],
       [protocol],
       [preoptimization_policy],
       [latency_optimization_policy],
       [optimization_policy],
       [cloud_acceleration],
       [kickoff],
       [status]])

/-- Python keyword binding of `expected_auto_discover_rule(number_of_rules=
number_of_rules, **kwords)`: each named parameter taken from the bag or
defaulted. -/
def callAutoDiscover (number_of_rules : Value) (kwords : Kw) :
    Except String Row :=
  expected_auto_discover_rule number_of_rules
    (kwGet kwords "position" Value.none)
    (kwGet kwords "source_subnet" (Value.str "all-IPv4"))
    (kwGet kwords "source_port" (Value.str "*"))
    (kwGet kwords "destination_subnet" (Value.str "all-IPv4"))
    (kwGet kwords "destination_port" (Value.str "*"))
    (kwGet kwords "vlan_id" Value.none)
    (kwGet kwords "preoptimization_policy" (Value.str "None"))
    (kwGet kwords "optimization_policy" (Value.str "Normal"))
    (kwGet kwords "latency_optimization_policy" (Value.str "Normal"))
    (kwGet kwords "protocol" (Value.str "--"))
    (kwGet kwords "auto_kickoff" Value.none)
    (kwGet kwords "status" (Value.str "Enabled"))
    (kwGet kwords "cloud_acceleration" (Value.str "Auto"))

/-- Keyword binding of `expected_fixed_target_rule` (default cloud
acceleration `None`). -/
def callFixedTarget (number_of_rules : Value) (kwords : Kw) :
    Except String Row :=
  expected_fixed_target_rule number_of_rules
    (kwGet kwords "position" Value.none)
    (kwGet kwords "source_subnet" (Value.str "all-IPv4"))
    (kwGet kwords "source_port" (Value.str "*"))
    (kwGet kwords "destination_subnet" (Value.str "all-IPv4"))
    (kwGet kwords "destination_port" (Value.str "*"))
    (kwGet kwords "vlan_id" Value.none)
    (kwGet kwords "preoptimization_policy" (Value.str "None"))
    (kwGet kwords "optimization_policy" (Value.str "Normal"))
    (kwGet kwords "latency_optimization_policy" (Value.str "Normal"))
    (kwGet kwords "protocol" (Value.str "--"))
    (kwGet kwords "auto_kickoff" Value.none)
    (kwGet kwords "status" (Value.str "Enabled"))
    (kwGet kwords "cloud_acceleration" Value.none)

/-- Keyword binding of `expected_pass_through_rule` (default protocol
`"TCP"`, default cloud acceleration `"Auto"`). -/
def callPassThrough (number_of_rules : Value) (kwords : Kw) :
    Except String Row :=
  expected_pass_through_rule number_of_rules
    (kwGet kwords "position" Value.none)
    (kwGet kwords "source_subnet" (Value.str "all-IPv4"))
    (kwGet kwords "source_port" (Value.str "*"))
    (kwGet kwords "destination_subnet" (Value.str "all-IPv4"))
    (kwGet kwords "destination_port" (Value.str "*"))
    (kwGet kwords "vlan_id" Value.none)
    (kwGet kwords "protocol" (Value.str "TCP"))
    (kwGet kwords "status" (Value.str "Enabled"))
    (kwGet kwords "cloud_acceleration" (Value.str "Auto"))

/-- Keyword binding of `expected_discard_rule` (default protocol `"--"`,
default cloud acceleration `None`). -/
def callDiscard (number_of_rules : Value) (kwords : Kw) :
    Except String Row :=
  expected_discard_rule number_of_rules
    (kwGet kwords "position" Value.none)
    (kwGet kwords "source_subnet" (Value.str "all-IPv4"))
    (kwGet kwords "source_port" (Value.str "*"))
    (kwGet kwords "destination_subnet" (Value.str "all-IPv4"))
    (kwGet kwords "destination_port" (Value.str "*"))
    (kwGet kwords "vlan_id" Value.none)
    (kwGet kwords "protocol" (Value.str "--"))
    (kwGet kwords "status" (Value.str "Enabled"))
    (kwGet kwords "cloud_acceleration" Value.none)

/-- Keyword binding of `expected_deny_rule` (its `type_of_rule` named
parameter is bound from the bag). -/
def callDeny (number_of_rules : Value) (kwords : Kw) :
    Except String Row :=
  expected_deny_rule
    (kwGet kwords "type_of_rule" Value.none)
    (kwGet kwords "position" Value.none)
    (kwGet kwords "source_subnet" (Value.str "all-IPv4"))
    (kwGet kwords "destination_subnet" (Value.str "all-IPv4"))
    (kwGet kwords "destination_port" (Value.str "*"))
    (kwGet kwords "vlan_id" Value.none)
    number_of_rules
    (kwGet kwords "protocol" (Value.str "--"))
    (kwGet kwords "status" (Value.str "Enabled"))
    (kwGet kwords "source_port" (Value.str "*"))
    (kwGet kwords "cloud_acceleration" Value.none)

/-- The message the unbound local variable raises in the dispatch when no
builder ran: `expected_data.append(expected_row)` reads `expected_row`
before any assignment. -/
def unboundLocalError : String :=
  "UnboundLocalError: local variable expected_row referenced before assignment"

/-- The error of `kwords['type_of_rule']` when the key is absent. -/
def keyErrorTypeOfRule : String := "KeyError: type_of_rule"

/-- The error of `'Description: ' + v` when `v` is not a string. -/
def typeErrorConcat : String := "TypeError: cannot concatenate str and non-str"

/-- The tail of the dispatch: `expected_data = [expected_row]`, then the
optional `'Description: ' + kwords['description']` row.  A builder error
propagates; a present non-string description fails the concatenation. -/
def appendDescription (kwords : Kw) (rowResult : Except String Row) :
    Except String (List Row) :=
  match rowResult with
  | Except.error e => Except.error e
  | Except.ok expected_row =>
    match kwLookup kwords "description" with
    | Option.none => Except.ok [expected_row]
    | Option.some (Value.str d) =>
      Except.ok [expected_row, [[Value.str ("Description: " ++ d)]]]
    | Option.some _ => Except.error typeErrorConcat

/-- `expected_rule`: dispatch on `type_of_rule`, append the optional
description row.  Returns the informational log together with the result;
an unrecognized type logs and then fails on the unbound `expected_row`
(before the description is even examined). -/
def expected_rule (number_of_rules : Value) (kwords : Kw) :
    List String × Except String (List Row) :=
  match kwLookup kwords "type_of_rule" with
  | Option.none => ([], Except.error keyErrorTypeOfRule)
  | Option.some t =>
    if t = Value.str "Auto Discover" then
      ([], appendDescription kwords (callAutoDiscover number_of_rules kwords))
    else if t = Value.str "Fixed-Target" then
      ([], appendDescription kwords (callFixedTarget number_of_rules kwords))
    else if t = Value.str "Pass Through" then
      ([], appendDescription kwords (callPassThrough number_of_rules kwords))
    else if t = Value.str "Discard" then
      ([], appendDescription kwords (callDiscard number_of_rules kwords))
    else if t = Value.str "Deny" then
      ([], appendDescription kwords (callDeny number_of_rules kwords))
    else
      (["Not a valid type"], Except.error unboundLocalError)

/-- The five recognized rule-type names, in dispatch order. -/
def validRuleTypes : List String :=
  ["Auto Discover", "Fixed-Target", "Pass Through", "Discard", "Deny"]

/-- Each rule-type label together with its keyword-bound builder. -/
def ruleBuilders : List (String × (Value → Kw → Except String Row)) :=
  [("Auto Discover", callAutoDiscover),
   ("Fixed-Target", callFixedTarget),
   ("Pass Through", callPassThrough),
   ("Discard", callDiscard),
   ("Deny", callDeny)]

/-- Whether a keyword is absent from the bag or bound to a string. -/
def strOrAbsentB (kwords : Kw) (k : String) : Bool :=
  match kwLookup kwords k with
  | Option.none => true
  | Option.some (Value.str _) => true
  | Option.some _ => false

/-- Whether every field that is copied verbatim into a row cell is either
absent or bound to a string in the bag. -/
def stringly (kwords : Kw) : Bool :=
  strOrAbsentB kwords "protocol" &&
  strOrAbsentB kwords "preoptimization_policy" &&
  strOrAbsentB kwords "latency_optimization_policy" &&
  strOrAbsentB kwords "optimization_policy" &&
  strOrAbsentB kwords "status" &&
  strOrAbsentB kwords "cloud_acceleration"

/-- Every keyword name some builder or the dispatch binds to a named
parameter (or consumes itself, as with `description`). -/
def namedParameterKeys : List String :=
  ["number_of_rules", "type_of_rule", "position", "source_subnet",
   "source_port", "destination_subnet", "destination_port", "vlan_id",
   "preoptimization_policy", "optimization_policy",
   "latency_optimization_policy", "protocol", "auto_kickoff", "status",
   "cloud_acceleration", "description"]

/-- The display value of the optimization-policy column for Auto Discover
and Fixed-Target rules: the abbreviation when the supplied policy is
`"Compression-Only"`, the supplied value otherwise. -/
def optDisplay (kwords : Kw) : Value :=
  let o := kwGet kwords "optimization_policy" (Value.str "Normal")
  if o = Value.str "Compression-Only" then Value.str "Compr-Only" else o

theorem kwLookup_eq_none {extras : Kw} {k : String}
    (h : ∀ p ∈ extras, p.1 ≠ k) : kwLookup extras k = Option.none := by
  induction extras with
  | nil => rfl
  | cons kv tl ih =>
    have hne : kv.1 ≠ k := h kv (List.mem_cons_self kv tl)
    show (if kv.1 = k then Option.some kv.2 else kwLookup tl k) = Option.none
    rw [if_neg hne]
    exact ih fun p hp => h p (List.mem_cons_of_mem kv hp)

theorem kwLookup_append {kw extras : Kw} {k : String}
    (h : kwLookup extras k = Option.none) :
    kwLookup (kw ++ extras) k = kwLookup kw k := by
  induction kw with
  | nil => simpa [kwLookup] using h
  | cons kv tl ih =>
    by_cases hk : kv.1 = k <;> simp [kwLookup, hk, ih]

theorem kwGet_str_of_strOrAbsentB {kwords : Kw} {k : String}
    (h : strOrAbsentB kwords k = true) (d : String) :
    ∃ s : String, kwGet kwords k (Value.str d) = Value.str s := by
  unfold strOrAbsentB at h
  unfold kwGet
  cases hl : kwLookup kwords k with
  | none => exact ⟨d, rfl⟩
  | some v =>
    rw [hl] at h
    cases v with
    | none => simp at h
    | str s => exact ⟨s, rfl⟩
    | int n => simp at h
    | bool b => simp at h

theorem expectedRulePrefix_str (t : String) (pos ss ds : Value)
    (s1 s2 : String) :
    expectedRulePrefix t pos ss (Value.str s1) ds (Value.str s2) =
      Except.ok [[Value.str (pyStr pos)], [Value.str t],
        [Value.str (pyStr ss ++ ":" ++ (if portIsAll s1 then "*" else s1))],
        [Value.str (pyStr ds ++ ":" ++ (if portIsAll s2 then "*" else s2))]] := by
  unfold expectedRulePrefix reMatchAll
  by_cases h1 : portIsAll s1 <;> by_cases h2 : portIsAll s2 <;>
    simp [h1, h2, pyStr]

theorem expectedRulePrefix_ok_ports {t : String} {pos ss sp ds dp : Value}
    {r : Row} (h : expectedRulePrefix t pos ss sp ds dp = Except.ok r) :
    (∃ s, sp = Value.str s) ∧ (∃ s, dp = Value.str s) := by
  cases sp with
  | str s1 =>
    cases dp with
    | str s2 => exact ⟨⟨s1, rfl⟩, ⟨s2, rfl⟩⟩
    | none => simp [expectedRulePrefix, reMatchAll] at h
    | int n => simp [expectedRulePrefix, reMatchAll] at h
    | bool b => simp [expectedRulePrefix, reMatchAll] at h
  | none => simp [expectedRulePrefix, reMatchAll] at h
  | int n => simp [expectedRulePrefix, reMatchAll] at h
  | bool b => simp [expectedRulePrefix, reMatchAll] at h

theorem expectedRulePrefix_notStr {t : String} {pos ss sp ds dp : Value}
    (h : ∀ s, sp ≠ Value.str s) :
    expectedRulePrefix t pos ss sp ds dp = Except.error typeErrorMatch := by
  cases sp with
  | str s => exact absurd rfl (h s)
  | none => rfl
  | int n => rfl
  | bool b => rfl

theorem expected_auto_discover_rule_str (nr pos ss ds vl pre opt lat proto
    ak st cl : Value) (s1 s2 : String) :
    expected_auto_discover_rule nr pos ss (Value.str s1) ds (Value.str s2)
        vl pre opt lat proto ak st cl =
      Except.ok [[Value.str (pyStr (if pos = Value.none then nr else pos))],
                 [Value.str "Auto Discover"],
                 [Value.str (pyStr ss ++ ":" ++
                    (if portIsAll s1 then "*" else s1))],
                 [Value.str (pyStr ds ++ ":" ++
                    (if portIsAll s2 then "*" else s2))],
                 [Value.str (translate_VLAN vl)],
                 [proto],
                 [pre],
                 [lat],
                 [if opt = Value.str "Compression-Only"
                  then Value.str "Compr-Only" else opt],
                 [cl],
                 [if truthy ak then Value.str "Yes" else Value.str "No"],
                 [st]] := by
  cases ak <;>
    simp [expected_auto_discover_rule, expectedRulePrefix_str, truthy]

theorem expected_auto_discover_rule_ok_ports {nr pos ss sp ds dp vl pre opt
    lat proto ak st cl : Value} {row : Row}
    (h : expected_auto_discover_rule nr pos ss sp ds dp vl pre opt lat
        proto ak st cl = Except.ok row) :
    (∃ s, sp = Value.str s) ∧ (∃ s, dp = Value.str s) := by
  simp only [expected_auto_discover_rule] at h
  cases hp : expectedRulePrefix "Auto Discover"
      (if pos = Value.none then nr else pos) ss sp ds dp with
  | error e => rw [hp] at h; simp at h
  | ok r => exact expectedRulePrefix_ok_ports hp

theorem expected_fixed_target_rule_str (nr pos ss ds vl pre opt lat proto
    ak st cl : Value) (s1 s2 : String) :
    expected_fixed_target_rule nr pos ss (Value.str s1) ds (Value.str s2)
        vl pre opt lat proto ak st cl =
      Except.ok [[Value.str (pyStr (if pos = Value.none then nr else pos))],
                 [Value.str "Fixed-Target"],
                 [Value.str (pyStr ss ++ ":" ++
                    (if portIsAll s1 then "*" else s1))],
                 [Value.str (pyStr ds ++ ":" ++
                    (if portIsAll s2 then "*" else s2))],
                 [Value.str (translate_VLAN vl)],
                 [proto],
                 [pre],
                 [lat],
                 [if opt = Value.str "Compression-Only"
                  then Value.str "Compr-Only" else opt],
                 [Value.str "--"],
                 [if truthy ak then Value.str "Yes" else Value.str "No"],
                 [st]] := by
  cases ak <;>
    simp [expected_fixed_target_rule, expectedRulePrefix_str, truthy]

theorem expected_fixed_target_rule_ok_ports {nr pos ss sp ds dp vl pre opt
    lat proto ak st cl : Value} {row : Row}
    (h : expected_fixed_target_rule nr pos ss sp ds dp vl pre opt lat
        proto ak st cl = Except.ok row) :
    (∃ s, sp = Value.str s) ∧ (∃ s, dp = Value.str s) := by
  simp only [expected_fixed_target_rule] at h
  cases hp : expectedRulePrefix "Fixed-Target"
      (if pos = Value.none then nr else pos) ss sp ds dp with
  | error e => rw [hp] at h; simp at h
  | ok r => exact expectedRulePrefix_ok_ports hp

theorem expected_pass_through_rule_str (nr pos ss ds vl proto st cl : Value)
    (s1 s2 : String) :
    expected_pass_through_rule nr pos ss (Value.str s1) ds (Value.str s2)
        vl proto st cl =
      Except.ok [[Value.str (pyStr (if pos = Value.none then nr else pos))],
                 [Value.str "Pass Through"],
                 [Value.str (pyStr ss ++ ":" ++
                    (if portIsAll s1 then "*" else s1))],
                 [Value.str (pyStr ds ++ ":" ++
                    (if portIsAll s2 then "*" else s2))],
                 [Value.str (translate_VLAN vl)],
                 [proto],
                 [Value.str "--"],
                 [Value.str "--"],
                 [Value.str "--"],
                 [cl],
                 [Value.str "--"],
                 [st]] := by
  simp [expected_pass_through_rule, expectedRulePrefix_str]

theorem expected_pass_through_rule_ok_ports {nr pos ss sp ds dp vl proto st
    cl : Value} {row : Row}
    (h : expected_pass_through_rule nr pos ss sp ds dp vl proto st cl =
        Except.ok row) :
    (∃ s, sp = Value.str s) ∧ (∃ s, dp = Value.str s) := by
  simp only [expected_pass_through_rule] at h
  cases hp : expectedRulePrefix "Pass Through"
      (if pos = Value.none then nr else pos) ss sp ds dp with
  | error e => rw [hp] at h; simp at h
  | ok r => exact expectedRulePrefix_ok_ports hp

theorem expected_discard_rule_str (nr pos ss ds vl proto st cl : Value)
    (s1 s2 : String) :
    expected_discard_rule nr pos ss (Value.str s1) ds (Value.str s2)
        vl proto st cl =
      Except.ok [[Value.str (pyStr (if pos = Value.none then nr else pos))],
                 [Value.str "Discard"],
                 [Value.str (pyStr ss ++ ":" ++
                    (if portIsAll s1 then "*" else s1))],
                 [Value.str (pyStr ds ++ ":" ++
                    (if portIsAll s2 then "*" else s2))],
                 [Value.str (translate_VLAN vl)],
                 [proto],
                 [Value.str "--"],
                 [Value.str "--"],
                 [Value.str "--"],
                 [Value.str "--"],
                 [Value.str "--"],
                 [st]] := by
  simp [expected_discard_rule, expectedRulePrefix_str]

theorem expected_discard_rule_ok_ports {nr pos ss sp ds dp vl proto st
    cl : Value} {row : Row}
    (h : expected_discard_rule nr pos ss sp ds dp vl proto st cl =
        Except.ok row) :
    (∃ s, sp = Value.str s) ∧ (∃ s, dp = Value.str s) := by
  simp only [expected_discard_rule] at h
  cases hp : expectedRulePrefix "Discard"
      (if pos = Value.none then nr else pos) ss sp ds dp with
  | error e => rw [hp] at h; simp at h
  | ok r => exact expectedRulePrefix_ok_ports hp

theorem expected_deny_rule_str (trl pos ss ds vl nr proto st cl : Value)
    (s1 s2 : String) :
    expected_deny_rule trl pos ss ds (Value.str s2) vl nr proto st
        (Value.str s1) cl =
      Except.ok [[Value.str (pyStr (if pos = Value.none then nr else pos))],
                 [Value.str "Deny"],
                 [Value.str (pyStr ss ++ ":" ++
                    (if portIsAll s1 then "*" else s1))],
                 [Value.str (pyStr ds ++ ":" ++
                    (if portIsAll s2 then "*" else s2))],
                 [Value.str (translate_VLAN vl)],
                 [proto],
                 [Value.str "--"],
                 [Value.str "--"],
                 [Value.str "--"],
                 [Value.str "--"],
                 [Value.str "--"],
                 [st]] := by
  simp [expected_deny_rule, expectedRulePrefix_str]

theorem expected_deny_rule_ok_ports {trl pos ss ds dp vl nr proto st sp
    cl : Value} {row : Row}
    (h : expected_deny_rule trl pos ss ds dp vl nr proto st sp cl =
        Except.ok row) :
    (∃ s, sp = Value.str s) ∧ (∃ s, dp = Value.str s) := by
  simp only [expected_deny_rule] at h
  cases hp : expectedRulePrefix "Deny"
      (if pos = Value.none then nr else pos) ss sp ds dp with
  | error e => rw [hp] at h; simp at h
  | ok r => exact expectedRulePrefix_ok_ports hp

theorem expected_auto_discover_rule_notStr {nr pos ss sp ds dp vl pre opt
    lat proto ak st cl : Value} (h : ∀ s, sp ≠ Value.str s) :
    expected_auto_discover_rule nr pos ss sp ds dp vl pre opt lat proto ak
      st cl = Except.error typeErrorMatch := by
  simp only [expected_auto_discover_rule, expectedRulePrefix_notStr h]

theorem expected_fixed_target_rule_notStr {nr pos ss sp ds dp vl pre opt
    lat proto ak st cl : Value} (h : ∀ s, sp ≠ Value.str s) :
    expected_fixed_target_rule nr pos ss sp ds dp vl pre opt lat proto ak
      st cl = Except.error typeErrorMatch := by
  simp only [expected_fixed_target_rule, expectedRulePrefix_notStr h]

theorem expected_pass_through_rule_notStr {nr pos ss sp ds dp vl proto st
    cl : Value} (h : ∀ s, sp ≠ Value.str s) :
    expected_pass_through_rule nr pos ss sp ds dp vl proto st cl =
      Except.error typeErrorMatch := by
  simp only [expected_pass_through_rule, expectedRulePrefix_notStr h]

theorem expected_discard_rule_notStr {nr pos ss sp ds dp vl proto st
    cl : Value} (h : ∀ s, sp ≠ Value.str s) :
    expected_discard_rule nr pos ss sp ds dp vl proto st cl =
      Except.error typeErrorMatch := by
  simp only [expected_discard_rule, expectedRulePrefix_notStr h]

theorem expected_deny_rule_notStr {trl pos ss ds dp vl nr proto st sp
    cl : Value} (h : ∀ s, sp ≠ Value.str s) :
    expected_deny_rule trl pos ss ds dp vl nr proto st sp cl =
      Except.error typeErrorMatch := by
  simp only [expected_deny_rule, expectedRulePrefix_notStr h]

theorem expectedRulePrefix_dstNotStr {t : String} {pos ss ds dp : Value}
    (s1 : String) (h : ∀ s, dp ≠ Value.str s) :
    expectedRulePrefix t pos ss (Value.str s1) ds dp =
      Except.error typeErrorMatch := by
  cases dp with
  | str s => exact absurd rfl (h s)
  | none => rfl
  | int n => rfl
  | bool b => rfl

theorem expected_auto_discover_rule_dstNotStr {nr pos ss ds dp vl pre opt
    lat proto ak st cl : Value} (s1 : String) (h : ∀ s, dp ≠ Value.str s) :
    expected_auto_discover_rule nr pos ss (Value.str s1) ds dp vl pre opt
      lat proto ak st cl = Except.error typeErrorMatch := by
  simp only [expected_auto_discover_rule, expectedRulePrefix_dstNotStr s1 h]

theorem expected_fixed_target_rule_dstNotStr {nr pos ss ds dp vl pre opt
    lat proto ak st cl : Value} (s1 : String) (h : ∀ s, dp ≠ Value.str s) :
    expected_fixed_target_rule nr pos ss (Value.str s1) ds dp vl pre opt
      lat proto ak st cl = Except.error typeErrorMatch := by
  simp only [expected_fixed_target_rule, expectedRulePrefix_dstNotStr s1 h]

theorem expected_pass_through_rule_dstNotStr {nr pos ss ds dp vl proto st
    cl : Value} (s1 : String) (h : ∀ s, dp ≠ Value.str s) :
    expected_pass_through_rule nr pos ss (Value.str s1) ds dp vl proto st
      cl = Except.error typeErrorMatch := by
  simp only [expected_pass_through_rule, expectedRulePrefix_dstNotStr s1 h]

theorem expected_discard_rule_dstNotStr {nr pos ss ds dp vl proto st
    cl : Value} (s1 : String) (h : ∀ s, dp ≠ Value.str s) :
    expected_discard_rule nr pos ss (Value.str s1) ds dp vl proto st cl =
      Except.error typeErrorMatch := by
  simp only [expected_discard_rule, expectedRulePrefix_dstNotStr s1 h]

theorem expected_deny_rule_dstNotStr {trl pos ss ds dp vl nr proto st
    cl : Value} (s1 : String) (h : ∀ s, dp ≠ Value.str s) :
    expected_deny_rule trl pos ss ds dp vl nr proto st (Value.str s1) cl =
      Except.error typeErrorMatch := by
  simp only [expected_deny_rule, expectedRulePrefix_dstNotStr s1 h]

/-- C4: `translate_VLAN` maps `None` to the literal string `"All"`; every
other value is string-coerced and capitalized, upper-casing the first
character and lower-casing the remainder; in particular it sends `None` to
`"All"`, `"corp"` to `"Corp"` and the integer `7` to `"7"`. -/
theorem c4_translate_VLAN :
    (∀ v : Value, v ≠ Value.none → translate_VLAN v = capitalize (pyStr v)) ∧
    (∀ (c : Char) (cs : List Char),
       (capitalize (String.mk (c :: cs))).data =
         asciiUpper c :: cs.map asciiLower) ∧
    translate_VLAN Value.none = "All" ∧
    translate_VLAN (Value.str "corp") = "Corp" ∧
    translate_VLAN (Value.int 7) = "7" ∧
    translate_VLAN (Value.str "cOrP") = "Corp" := by
  refine ⟨?_, ?_, by decide, by decide, by decide, by decide⟩
  · intro v hv
    unfold translate_VLAN
    rw [if_neg hv]
  · intro c cs
    rfl

theorem c4_witness :
    translate_VLAN (Value.bool true) = capitalize (pyStr (Value.bool true)) :=
  c4_translate_VLAN.1 (Value.bool true) (by decide)

/-- C2 counterexample: dispatching an unrecognized rule type logs the
informational message but then fails with the unbound-local error on
`expected_row`, so an exception does reach the caller, contrary to the
claim that none is raised. -/
theorem c2_counterexample :
    expected_rule Value.none [("type_of_rule", Value.str "Bogus")] =
      (["Not a valid type"], Except.error unboundLocalError) := by
  rfl

/-- C2 amended: for every call of the dispatch whose `type_of_rule` is not
one of the five recognized names, the function logs the informational
message `"Not a valid type"` and then raises an unbound-local error while
appending the never-assigned row, so the caller receives an exception
rather than a row-less return. -/
theorem c2_invalid_type_raises (nr : Value) (kw : Kw) (t : Value)
    (hl : kwLookup kw "type_of_rule" = Option.some t)
    (hv : ∀ n ∈ validRuleTypes, t ≠ Value.str n) :
    expected_rule nr kw =
      (["Not a valid type"], Except.error unboundLocalError) := by
  have h1 : ¬ t = Value.str "Auto Discover" := hv _ (by simp [validRuleTypes])
  have h2 : ¬ t = Value.str "Fixed-Target" := hv _ (by simp [validRuleTypes])
  have h3 : ¬ t = Value.str "Pass Through" := hv _ (by simp [validRuleTypes])
  have h4 : ¬ t = Value.str "Discard" := hv _ (by simp [validRuleTypes])
  have h5 : ¬ t = Value.str "Deny" := hv _ (by simp [validRuleTypes])
  simp [expected_rule, hl, h1, h2, h3, h4, h5]

theorem c2_witness :
    expected_rule Value.none [("type_of_rule", Value.int 5)] =
      (["Not a valid type"], Except.error unboundLocalError) :=
  c2_invalid_type_raises Value.none [("type_of_rule", Value.int 5)]
    (Value.int 5) (by rfl) (by decide)

/-- C9 counterexample: the Auto Discover builder applied to an integer
source port raises a `TypeError` from the regex match instead of
string-coercing the value, so row construction does not succeed on every
representable port value. -/
theorem c9_counterexample :
    callAutoDiscover Value.none [("source_port", Value.int 80)] =
      Except.error typeErrorMatch := by
  rfl

/-- C9 amended: the builders perform no validation on subnet values or on
string port values: for every builder, any subnet value (string or not) is
string-coerced into the source and destination cells and any string port
is accepted; a non-string source or destination port, however, makes the
regex match raise a `TypeError`. -/
theorem c9_no_validation :
    (∀ b ∈ ruleBuilders, ∀ (nr : Value) (kw : Kw) (s1 s2 : String),
       kwGet kw "source_port" (Value.str "*") = Value.str s1 →
       kwGet kw "destination_port" (Value.str "*") = Value.str s2 →
       ∃ row : Row, b.2 nr kw = Except.ok row ∧
         row.get? 2 = Option.some [Value.str
           (pyStr (kwGet kw "source_subnet" (Value.str "all-IPv4")) ++ ":" ++
             (if portIsAll s1 then "*" else s1))] ∧
         row.get? 3 = Option.some [Value.str
           (pyStr (kwGet kw "destination_subnet" (Value.str "all-IPv4")) ++
             ":" ++ (if portIsAll s2 then "*" else s2))]) ∧
    (∀ b ∈ ruleBuilders, ∀ (nr : Value) (kw : Kw),
       (∀ s, kwGet kw "source_port" (Value.str "*") ≠ Value.str s) →
       b.2 nr kw = Except.error typeErrorMatch) ∧
    (∀ b ∈ ruleBuilders, ∀ (nr : Value) (kw : Kw) (s1 : String),
       kwGet kw "source_port" (Value.str "*") = Value.str s1 →
       (∀ s, kwGet kw "destination_port" (Value.str "*") ≠ Value.str s) →
       b.2 nr kw = Except.error typeErrorMatch) := by
  refine ⟨?_, ?_, ?_⟩
  · intro b hb
    simp only [ruleBuilders, List.mem_cons, List.not_mem_nil, or_false] at hb
    rcases hb with rfl | rfl | rfl | rfl | rfl <;>
      · intro nr kw s1 s2 hs hd
        simp only [callAutoDiscover, callFixedTarget, callPassThrough,
          callDiscard, callDeny, hs, hd, expected_auto_discover_rule_str,
          expected_fixed_target_rule_str, expected_pass_through_rule_str,
          expected_discard_rule_str, expected_deny_rule_str]
        exact ⟨_, rfl, rfl, rfl⟩
  · intro b hb
    simp only [ruleBuilders, List.mem_cons, List.not_mem_nil, or_false] at hb
    rcases hb with rfl | rfl | rfl | rfl | rfl
    · intro nr kw hns
      exact expected_auto_discover_rule_notStr hns
    · intro nr kw hns
      show callFixedTarget nr kw = Except.error typeErrorMatch
      simp only [callFixedTarget]
      exact expected_fixed_target_rule_notStr hns
    · intro nr kw hns
      exact expected_pass_through_rule_notStr hns
    · intro nr kw hns
      show callDiscard nr kw = Except.error typeErrorMatch
      simp only [callDiscard]
      exact expected_discard_rule_notStr hns
    · intro nr kw hns
      show callDeny nr kw = Except.error typeErrorMatch
      simp only [callDeny]
      exact expected_deny_rule_notStr hns
  · intro b hb
    simp only [ruleBuilders, List.mem_cons, List.not_mem_nil, or_false] at hb
    rcases hb with rfl | rfl | rfl | rfl | rfl
    · intro nr kw s1 hs hnd
      show callAutoDiscover nr kw = Except.error typeErrorMatch
      simp only [callAutoDiscover]
      rw [hs]
      exact expected_auto_discover_rule_dstNotStr s1 hnd
    · intro nr kw s1 hs hnd
      show callFixedTarget nr kw = Except.error typeErrorMatch
      simp only [callFixedTarget]
      rw [hs]
      exact expected_fixed_target_rule_dstNotStr s1 hnd
    · intro nr kw s1 hs hnd
      show callPassThrough nr kw = Except.error typeErrorMatch
      simp only [callPassThrough]
      rw [hs]
      exact expected_pass_through_rule_dstNotStr s1 hnd
    · intro nr kw s1 hs hnd
      show callDiscard nr kw = Except.error typeErrorMatch
      simp only [callDiscard]
      rw [hs]
      exact expected_discard_rule_dstNotStr s1 hnd
    · intro nr kw s1 hs hnd
      show callDeny nr kw = Except.error typeErrorMatch
      simp only [callDeny]
      rw [hs]
      exact expected_deny_rule_dstNotStr s1 hnd

theorem c9_witness :
    (∃ row : Row,
      callAutoDiscover Value.none [("source_subnet", Value.int 10)] =
        Except.ok row ∧
      row.get? 2 = Option.some [Value.str "10:*"] ∧
      row.get? 3 = Option.some [Value.str "all-IPv4:*"]) ∧
    callAutoDiscover Value.none [("destination_port", Value.int 80)] =
      Except.error typeErrorMatch := by
  obtain ⟨row, h1, h2, h3⟩ :=
    c9_no_validation.1 ("Auto Discover", callAutoDiscover)
      (by simp [ruleBuilders]) Value.none [("source_subnet", Value.int 10)]
      "*" "*" rfl rfl
  refine ⟨⟨row, h1, by rw [h2]; decide, by rw [h3]; decide⟩, ?_⟩
  exact c9_no_validation.2.2 ("Auto Discover", callAutoDiscover)
    (by simp [ruleBuilders]) Value.none
    [("destination_port", Value.int 80)] "*" rfl
    (fun s hc => by simp [kwGet, kwLookup] at hc)

theorem singletonRow_shape (v1 v2 v3 v4 v5 v6 v7 v8 v9 v10 v11 v12 :
    List Value) :
    ([v1, v2, v3, v4, v5, v6, v7, v8, v9, v10, v11, v12] : Row).length =
      12 := rfl

theorem singletonRow_mem {v1 v2 v3 v4 v5 v6 v7 v8 v9 v10 v11 v12 : Value}
    {g2 : List Value}
    (hg : g2 ∈ ([[v1], [v2], [v3], [v4], [v5], [v6], [v7], [v8], [v9],
        [v10], [v11], [v12]] : Row)) : g2.length = 1 := by
  simp only [List.mem_cons, List.not_mem_nil, or_false] at hg
  rcases hg with rfl | rfl | rfl | rfl | rfl | rfl | rfl | rfl | rfl | rfl
    | rfl | rfl <;> rfl

/-- C1: whenever a builder returns a row at all, the row has exactly 12
one-element cell-groups; and whenever the fields that are copied verbatim
into cells are strings (or absent), the row consists of 12 one-element
groups of display strings in the fixed column order position, type,
source, destination, VLAN, protocol, pre-optimization policy,
latency-optimization policy, optimization policy, cloud-acceleration,
kickoff, status, with the rule-type label in the second column. -/
theorem c1_row_structure :
    (∀ b ∈ ruleBuilders, ∀ (nr : Value) (kw : Kw) (row : Row),
       b.2 nr kw = Except.ok row →
       row.length = 12 ∧ ∀ g2 ∈ row, g2.length = 1) ∧
    (∀ b ∈ ruleBuilders, ∀ (nr : Value) (kw : Kw) (row : Row),
       stringly kw = true → b.2 nr kw = Except.ok row →
       ∃ s1 s2 pr po la op cl ki st : String,
         row = [[Value.str (pyStr (if kwGet kw "position" Value.none =
                    Value.none then nr else kwGet kw "position" Value.none))],
                [Value.str b.1],
                [Value.str (pyStr (kwGet kw "source_subnet"
                    (Value.str "all-IPv4")) ++ ":" ++
                  (if portIsAll s1 then "*" else s1))],
                [Value.str (pyStr (kwGet kw "destination_subnet"
                    (Value.str "all-IPv4")) ++ ":" ++
                  (if portIsAll s2 then "*" else s2))],
                [Value.str (translate_VLAN (kwGet kw "vlan_id" Value.none))],
                [Value.str pr], [Value.str po], [Value.str la],
                [Value.str op], [Value.str cl], [Value.str ki],
                [Value.str st]]) := by
  constructor
  · intro b hb
    simp only [ruleBuilders, List.mem_cons, List.not_mem_nil, or_false] at hb
    rcases hb with rfl | rfl | rfl | rfl | rfl
    · intro nr kw row hok
      replace hok : callAutoDiscover nr kw = Except.ok row := hok
      simp only [callAutoDiscover] at hok
      obtain ⟨⟨s1, hs⟩, ⟨s2, hd⟩⟩ := expected_auto_discover_rule_ok_ports hok
      rw [hs, hd, expected_auto_discover_rule_str] at hok
      injection hok with hrow
      subst hrow
      exact ⟨rfl, fun g2 hg => singletonRow_mem hg⟩
    · intro nr kw row hok
      replace hok : callFixedTarget nr kw = Except.ok row := hok
      simp only [callFixedTarget] at hok
      obtain ⟨⟨s1, hs⟩, ⟨s2, hd⟩⟩ := expected_fixed_target_rule_ok_ports hok
      rw [hs, hd, expected_fixed_target_rule_str] at hok
      injection hok with hrow
      subst hrow
      exact ⟨rfl, fun g2 hg => singletonRow_mem hg⟩
    · intro nr kw row hok
      replace hok : callPassThrough nr kw = Except.ok row := hok
      simp only [callPassThrough] at hok
      obtain ⟨⟨s1, hs⟩, ⟨s2, hd⟩⟩ := expected_pass_through_rule_ok_ports hok
      rw [hs, hd, expected_pass_through_rule_str] at hok
      injection hok with hrow
      subst hrow
      exact ⟨rfl, fun g2 hg => singletonRow_mem hg⟩
    · intro nr kw row hok
      replace hok : callDiscard nr kw = Except.ok row := hok
      simp only [callDiscard] at hok
      obtain ⟨⟨s1, hs⟩, ⟨s2, hd⟩⟩ := expected_discard_rule_ok_ports hok
      rw [hs, hd, expected_discard_rule_str] at hok
      injection hok with hrow
      subst hrow
      exact ⟨rfl, fun g2 hg => singletonRow_mem hg⟩
    · intro nr kw row hok
      replace hok : callDeny nr kw = Except.ok row := hok
      simp only [callDeny] at hok
      obtain ⟨⟨s1, hs⟩, ⟨s2, hd⟩⟩ := expected_deny_rule_ok_ports hok
      rw [hs, hd, expected_deny_rule_str] at hok
      injection hok with hrow
      subst hrow
      exact ⟨rfl, fun g2 hg => singletonRow_mem hg⟩
  · intro b hb
    simp only [ruleBuilders, List.mem_cons, List.not_mem_nil, or_false] at hb
    rcases hb with rfl | rfl | rfl | rfl | rfl
    · intro nr kw row hstr hok
      replace hok : callAutoDiscover nr kw = Except.ok row := hok
      simp only [callAutoDiscover] at hok
      obtain ⟨⟨s1, hs⟩, ⟨s2, hd⟩⟩ := expected_auto_discover_rule_ok_ports hok
      rw [hs, hd, expected_auto_discover_rule_str] at hok
      simp only [stringly, Bool.and_eq_true] at hstr
      obtain ⟨⟨⟨⟨⟨hPr, hPo⟩, hLa⟩, hOp⟩, hSt⟩, hCl⟩ := hstr
      obtain ⟨sPr, ePr⟩ := kwGet_str_of_strOrAbsentB hPr "--"
      obtain ⟨sPo, ePo⟩ := kwGet_str_of_strOrAbsentB hPo "None"
      obtain ⟨sLa, eLa⟩ := kwGet_str_of_strOrAbsentB hLa "Normal"
      obtain ⟨sOp, eOp⟩ := kwGet_str_of_strOrAbsentB hOp "Normal"
      obtain ⟨sSt, eSt⟩ := kwGet_str_of_strOrAbsentB hSt "Enabled"
      obtain ⟨sCl, eCl⟩ := kwGet_str_of_strOrAbsentB hCl "Auto"
      injection hok with hrow
      subst hrow
      refine ⟨s1, s2, sPr, sPo, sLa,
        (if sOp = "Compression-Only" then "Compr-Only" else sOp), sCl,
        (if truthy (kwGet kw "auto_kickoff" Value.none) then "Yes"
         else "No"), sSt, ?_⟩
      rw [ePr, ePo, eLa, eOp, eSt, eCl]
      by_cases hco : sOp = "Compression-Only" <;>
        simp [hco, apply_ite Value.str]
    · intro nr kw row hstr hok
      replace hok : callFixedTarget nr kw = Except.ok row := hok
      simp only [callFixedTarget] at hok
      obtain ⟨⟨s1, hs⟩, ⟨s2, hd⟩⟩ := expected_fixed_target_rule_ok_ports hok
      rw [hs, hd, expected_fixed_target_rule_str] at hok
      simp only [stringly, Bool.and_eq_true] at hstr
      obtain ⟨⟨⟨⟨⟨hPr, hPo⟩, hLa⟩, hOp⟩, hSt⟩, hCl⟩ := hstr
      obtain ⟨sPr, ePr⟩ := kwGet_str_of_strOrAbsentB hPr "--"
      obtain ⟨sPo, ePo⟩ := kwGet_str_of_strOrAbsentB hPo "None"
      obtain ⟨sLa, eLa⟩ := kwGet_str_of_strOrAbsentB hLa "Normal"
      obtain ⟨sOp, eOp⟩ := kwGet_str_of_strOrAbsentB hOp "Normal"
      obtain ⟨sSt, eSt⟩ := kwGet_str_of_strOrAbsentB hSt "Enabled"
      injection hok with hrow
      subst hrow
      refine ⟨s1, s2, sPr, sPo, sLa,
        (if sOp = "Compression-Only" then "Compr-Only" else sOp), "--",
        (if truthy (kwGet kw "auto_kickoff" Value.none) then "Yes"
         else "No"), sSt, ?_⟩
      rw [ePr, ePo, eLa, eOp, eSt]
      by_cases hco : sOp = "Compression-Only" <;>
        simp [hco, apply_ite Value.str]
    · intro nr kw row hstr hok
      replace hok : callPassThrough nr kw = Except.ok row := hok
      simp only [callPassThrough] at hok
      obtain ⟨⟨s1, hs⟩, ⟨s2, hd⟩⟩ := expected_pass_through_rule_ok_ports hok
      rw [hs, hd, expected_pass_through_rule_str] at hok
      simp only [stringly, Bool.and_eq_true] at hstr
      obtain ⟨⟨⟨⟨⟨hPr, hPo⟩, hLa⟩, hOp⟩, hSt⟩, hCl⟩ := hstr
      obtain ⟨sPr, ePr⟩ := kwGet_str_of_strOrAbsentB hPr "TCP"
      obtain ⟨sSt, eSt⟩ := kwGet_str_of_strOrAbsentB hSt "Enabled"
      obtain ⟨sCl, eCl⟩ := kwGet_str_of_strOrAbsentB hCl "Auto"
      injection hok with hrow
      subst hrow
      refine ⟨s1, s2, sPr, "--", "--", "--", sCl, "--", sSt, ?_⟩
      rw [ePr, eSt, eCl]
    · intro nr kw row hstr hok
      replace hok : callDiscard nr kw = Except.ok row := hok
      simp only [callDiscard] at hok
      obtain ⟨⟨s1, hs⟩, ⟨s2, hd⟩⟩ := expected_discard_rule_ok_ports hok
      rw [hs, hd, expected_discard_rule_str] at hok
      simp only [stringly, Bool.and_eq_true] at hstr
      obtain ⟨⟨⟨⟨⟨hPr, hPo⟩, hLa⟩, hOp⟩, hSt⟩, hCl⟩ := hstr
      obtain ⟨sPr, ePr⟩ := kwGet_str_of_strOrAbsentB hPr "--"
      obtain ⟨sSt, eSt⟩ := kwGet_str_of_strOrAbsentB hSt "Enabled"
      injection hok with hrow
      subst hrow
      refine ⟨s1, s2, sPr, "--", "--", "--", "--", "--", sSt, ?_⟩
      rw [ePr, eSt]
    · intro nr kw row hstr hok
      replace hok : callDeny nr kw = Except.ok row := hok
      simp only [callDeny] at hok
      obtain ⟨⟨s1, hs⟩, ⟨s2, hd⟩⟩ := expected_deny_rule_ok_ports hok
      rw [hs, hd, expected_deny_rule_str] at hok
      simp only [stringly, Bool.and_eq_true] at hstr
      obtain ⟨⟨⟨⟨⟨hPr, hPo⟩, hLa⟩, hOp⟩, hSt⟩, hCl⟩ := hstr
      obtain ⟨sPr, ePr⟩ := kwGet_str_of_strOrAbsentB hPr "--"
      obtain ⟨sSt, eSt⟩ := kwGet_str_of_strOrAbsentB hSt "Enabled"
      injection hok with hrow
      subst hrow
      refine ⟨s1, s2, sPr, "--", "--", "--", "--", "--", sSt, ?_⟩
      rw [ePr, eSt]

theorem c1_witness :
    ∃ s1 s2 pr po la op cl ki st : String,
      ([[Value.str "4"], [Value.str "Discard"], [Value.str "all-IPv4:*"],
        [Value.str "all-IPv4:*"], [Value.str "All"], [Value.str "--"],
        [Value.str "--"], [Value.str "--"], [Value.str "--"],
        [Value.str "--"], [Value.str "--"], [Value.str "Enabled"]] : Row) =
      [[Value.str "4"], [Value.str "Discard"],
       [Value.str ("all-IPv4:" ++ (if portIsAll s1 then "*" else s1))],
       [Value.str ("all-IPv4:" ++ (if portIsAll s2 then "*" else s2))],
       [Value.str "All"], [Value.str pr], [Value.str po], [Value.str la],
       [Value.str op], [Value.str cl], [Value.str ki], [Value.str st]] := by
  obtain ⟨s1, s2, pr, po, la, op, cl, ki, st, he⟩ :=
    c1_row_structure.2 ("Discard", callDiscard) (by simp [ruleBuilders])
      (Value.str "4") []
      [[Value.str "4"], [Value.str "Discard"], [Value.str "all-IPv4:*"],
       [Value.str "all-IPv4:*"], [Value.str "All"], [Value.str "--"],
       [Value.str "--"], [Value.str "--"], [Value.str "--"],
       [Value.str "--"], [Value.str "--"], [Value.str "Enabled"]]
      rfl rfl
  refine ⟨s1, s2, pr, po, la, op, cl, ki, st, ?_⟩
  rw [he]
  simp [kwGet, kwLookup, pyStr, translate_VLAN]

/-- C3: in every builder the source and destination cells are formatted as
subnet `:` port, a port that case-insensitively equals `"all"` as an
anchored whole-string match being replaced by `"*"` and any other port
value passing through unchanged; `"all"`, `"ALL"` and `"All"` satisfy the
normalization predicate while `"80"` and `"*"` do not. -/
theorem c3_port_normalization :
    (∀ b ∈ ruleBuilders, ∀ (nr : Value) (kw : Kw) (row : Row)
       (s1 s2 : String),
       kwGet kw "source_port" (Value.str "*") = Value.str s1 →
       kwGet kw "destination_port" (Value.str "*") = Value.str s2 →
       b.2 nr kw = Except.ok row →
       row.get? 2 = Option.some [Value.str
         (pyStr (kwGet kw "source_subnet" (Value.str "all-IPv4")) ++ ":" ++
           (if portIsAll s1 then "*" else s1))] ∧
       row.get? 3 = Option.some [Value.str
         (pyStr (kwGet kw "destination_subnet" (Value.str "all-IPv4")) ++
           ":" ++ (if portIsAll s2 then "*" else s2))]) ∧
    portIsAll "all" = true ∧ portIsAll "ALL" = true ∧
    portIsAll "All" = true ∧ portIsAll "80" = false ∧
    portIsAll "*" = false := by
  refine ⟨?_, by decide, by decide, by decide, by decide, by decide⟩
  intro b hb
  simp only [ruleBuilders, List.mem_cons, List.not_mem_nil, or_false] at hb
  rcases hb with rfl | rfl | rfl | rfl | rfl
  · intro nr kw row s1 s2 hs hd hok
    replace hok : callAutoDiscover nr kw = Except.ok row := hok
    simp only [callAutoDiscover] at hok
    rw [hs, hd, expected_auto_discover_rule_str] at hok
    injection hok with hrow
    subst hrow
    exact ⟨rfl, rfl⟩
  · intro nr kw row s1 s2 hs hd hok
    replace hok : callFixedTarget nr kw = Except.ok row := hok
    simp only [callFixedTarget] at hok
    rw [hs, hd, expected_fixed_target_rule_str] at hok
    injection hok with hrow
    subst hrow
    exact ⟨rfl, rfl⟩
  · intro nr kw row s1 s2 hs hd hok
    replace hok : callPassThrough nr kw = Except.ok row := hok
    simp only [callPassThrough] at hok
    rw [hs, hd, expected_pass_through_rule_str] at hok
    injection hok with hrow
    subst hrow
    exact ⟨rfl, rfl⟩
  · intro nr kw row s1 s2 hs hd hok
    replace hok : callDiscard nr kw = Except.ok row := hok
    simp only [callDiscard] at hok
    rw [hs, hd, expected_discard_rule_str] at hok
    injection hok with hrow
    subst hrow
    exact ⟨rfl, rfl⟩
  · intro nr kw row s1 s2 hs hd hok
    replace hok : callDeny nr kw = Except.ok row := hok
    simp only [callDeny] at hok
    rw [hs, hd, expected_deny_rule_str] at hok
    injection hok with hrow
    subst hrow
    exact ⟨rfl, rfl⟩

theorem c3_witness :
    ∃ row : Row, callDeny (Value.int 1)
        [("source_port", Value.str "ALL"),
         ("destination_port", Value.str "80")] = Except.ok row ∧
      row.get? 2 = Option.some [Value.str "all-IPv4:*"] ∧
      row.get? 3 = Option.some [Value.str "all-IPv4:80"] := by
  have h := c3_port_normalization.1 ("Deny", callDeny)
    (by simp [ruleBuilders]) (Value.int 1)
    [("source_port", Value.str "ALL"), ("destination_port", Value.str "80")]
    ([[Value.str "1"], [Value.str "Deny"], [Value.str "all-IPv4:*"],
      [Value.str "all-IPv4:80"], [Value.str "All"], [Value.str "--"],
      [Value.str "--"], [Value.str "--"], [Value.str "--"],
      [Value.str "--"], [Value.str "--"], [Value.str "Enabled"]] : Row)
    "ALL" "80" rfl rfl rfl
  exact ⟨[[Value.str "1"], [Value.str "Deny"], [Value.str "all-IPv4:*"],
      [Value.str "all-IPv4:80"], [Value.str "All"], [Value.str "--"],
      [Value.str "--"], [Value.str "--"], [Value.str "--"],
      [Value.str "--"], [Value.str "--"], [Value.str "Enabled"]],
    rfl, by rw [h.1]; decide, by rw [h.2]; decide⟩

/-- C5: for the Auto Discover and Fixed-Target builders the kickoff column
(index 10) renders `"Yes"` exactly when `auto_kickoff` is truthy and
`"No"` when it is falsy or absent, never the placeholder `"--"`;
truthiness holds for `True` and `1` and fails for `None`, `False` and
`0`. -/
theorem c5_kickoff :
    (∀ (nr : Value) (kw : Kw) (row : Row),
       callAutoDiscover nr kw = Except.ok row →
       row.get? 10 = Option.some [Value.str
         (if truthy (kwGet kw "auto_kickoff" Value.none) then "Yes"
          else "No")] ∧
       row.get? 10 ≠ Option.some [Value.str "--"]) ∧
    (∀ (nr : Value) (kw : Kw) (row : Row),
       callFixedTarget nr kw = Except.ok row →
       row.get? 10 = Option.some [Value.str
         (if truthy (kwGet kw "auto_kickoff" Value.none) then "Yes"
          else "No")] ∧
       row.get? 10 ≠ Option.some [Value.str "--"]) ∧
    truthy (Value.bool true) = true ∧ truthy (Value.int 1) = true ∧
    truthy Value.none = false ∧ truthy (Value.bool false) = false ∧
    truthy (Value.int 0) = false := by
  refine ⟨?_, ?_, by decide, by decide, by decide, by decide, by decide⟩
  · intro nr kw row hok
    simp only [callAutoDiscover] at hok
    obtain ⟨⟨s1, hs⟩, ⟨s2, hd⟩⟩ := expected_auto_discover_rule_ok_ports hok
    rw [hs, hd, expected_auto_discover_rule_str] at hok
    injection hok with hrow
    subst hrow
    by_cases hk : truthy (kwGet kw "auto_kickoff" Value.none) = true <;>
      simp [hk]
  · intro nr kw row hok
    simp only [callFixedTarget] at hok
    obtain ⟨⟨s1, hs⟩, ⟨s2, hd⟩⟩ := expected_fixed_target_rule_ok_ports hok
    rw [hs, hd, expected_fixed_target_rule_str] at hok
    injection hok with hrow
    subst hrow
    by_cases hk : truthy (kwGet kw "auto_kickoff" Value.none) = true <;>
      simp [hk]

theorem c5_witness :
    List.get? [[Value.str "1"], [Value.str "Auto Discover"],
      [Value.str "all-IPv4:*"], [Value.str "all-IPv4:*"], [Value.str "All"],
      [Value.str "--"], [Value.str "None"], [Value.str "Normal"],
      [Value.str "Normal"], [Value.str "Auto"], [Value.str "Yes"],
      [Value.str "Enabled"]] 10 = Option.some [Value.str "Yes"] ∧
    List.get? [[Value.str "1"], [Value.str "Auto Discover"],
      [Value.str "all-IPv4:*"], [Value.str "all-IPv4:*"], [Value.str "All"],
      [Value.str "--"], [Value.str "None"], [Value.str "Normal"],
      [Value.str "Normal"], [Value.str "Auto"], [Value.str "Yes"],
      [Value.str "Enabled"]] 10 ≠ Option.some [Value.str "--"] := by
  have h := c5_kickoff.1 (Value.int 1) [("auto_kickoff", Value.bool true)]
    ([[Value.str "1"], [Value.str "Auto Discover"],
      [Value.str "all-IPv4:*"], [Value.str "all-IPv4:*"], [Value.str "All"],
      [Value.str "--"], [Value.str "None"], [Value.str "Normal"],
      [Value.str "Normal"], [Value.str "Auto"], [Value.str "Yes"],
      [Value.str "Enabled"]] : Row) rfl
  exact ⟨by rw [h.1]; decide, h.2⟩

/-- C6: for the Auto Discover and Fixed-Target builders the
optimization-policy column (index 8) carries the same display value: the
abbreviation `"Compr-Only"` when the supplied policy is
`"Compression-Only"`, and the supplied value unchanged otherwise. -/
theorem c6_compression_abbreviation :
    ∀ (nr : Value) (kw : Kw) (rowA rowF : Row),
      callAutoDiscover nr kw = Except.ok rowA →
      callFixedTarget nr kw = Except.ok rowF →
      (rowA.get? 8 = Option.some [optDisplay kw] ∧
       rowF.get? 8 = Option.some [optDisplay kw]) ∧
      (kwGet kw "optimization_policy" (Value.str "Normal") =
          Value.str "Compression-Only" →
        optDisplay kw = Value.str "Compr-Only") ∧
      (kwGet kw "optimization_policy" (Value.str "Normal") ≠
          Value.str "Compression-Only" →
        optDisplay kw = kwGet kw "optimization_policy"
          (Value.str "Normal")) := by
  intro nr kw rowA rowF hA hF
  simp only [callAutoDiscover] at hA
  obtain ⟨⟨s1, hs⟩, ⟨s2, hd⟩⟩ := expected_auto_discover_rule_ok_ports hA
  rw [hs, hd, expected_auto_discover_rule_str] at hA
  simp only [callFixedTarget] at hF
  rw [hs, hd, expected_fixed_target_rule_str] at hF
  injection hA with hra
  injection hF with hrf
  subst hra
  subst hrf
  refine ⟨⟨rfl, rfl⟩, ?_, ?_⟩
  · intro h
    simp [optDisplay, h]
  · intro h
    simp [optDisplay, h]

theorem c6_witness :
    (List.get? [[Value.str "1"], [Value.str "Auto Discover"],
        [Value.str "all-IPv4:*"], [Value.str "all-IPv4:*"],
        [Value.str "All"], [Value.str "--"], [Value.str "None"],
        [Value.str "Normal"], [Value.str "Compr-Only"], [Value.str "Auto"],
        [Value.str "No"], [Value.str "Enabled"]] 8 =
      Option.some [optDisplay
        [("optimization_policy", Value.str "Compression-Only")]] ∧
     List.get? [[Value.str "1"], [Value.str "Fixed-Target"],
        [Value.str "all-IPv4:*"], [Value.str "all-IPv4:*"],
        [Value.str "All"], [Value.str "--"], [Value.str "None"],
        [Value.str "Normal"], [Value.str "Compr-Only"], [Value.str "--"],
        [Value.str "No"], [Value.str "Enabled"]] 8 =
      Option.some [optDisplay
        [("optimization_policy", Value.str "Compression-Only")]]) ∧
    (kwGet [("optimization_policy", Value.str "Compression-Only")]
        "optimization_policy" (Value.str "Normal") =
        Value.str "Compression-Only" →
      optDisplay [("optimization_policy", Value.str "Compression-Only")] =
        Value.str "Compr-Only") ∧
    (kwGet [("optimization_policy", Value.str "Compression-Only")]
        "optimization_policy" (Value.str "Normal") ≠
        Value.str "Compression-Only" →
      optDisplay [("optimization_policy", Value.str "Compression-Only")] =
        kwGet [("optimization_policy", Value.str "Compression-Only")]
          "optimization_policy" (Value.str "Normal")) :=
  c6_compression_abbreviation (Value.int 1)
    [("optimization_policy", Value.str "Compression-Only")]
    ([[Value.str "1"], [Value.str "Auto Discover"],
      [Value.str "all-IPv4:*"], [Value.str "all-IPv4:*"], [Value.str "All"],
      [Value.str "--"], [Value.str "None"], [Value.str "Normal"],
      [Value.str "Compr-Only"], [Value.str "Auto"], [Value.str "No"],
      [Value.str "Enabled"]] : Row)
    ([[Value.str "1"], [Value.str "Fixed-Target"],
      [Value.str "all-IPv4:*"], [Value.str "all-IPv4:*"], [Value.str "All"],
      [Value.str "--"], [Value.str "None"], [Value.str "Normal"],
      [Value.str "Compr-Only"], [Value.str "--"], [Value.str "No"],
      [Value.str "Enabled"]] : Row) rfl rfl

/-- C7: fields not applicable to a rule type render as the placeholder
`"--"` no matter what was supplied: Fixed-Target forces the
cloud-acceleration column (index 9), and Pass Through, Discard and Deny
force the pre-optimization, latency-optimization and optimization columns
(indices 6, 7, 8) and the kickoff column (index 10). -/
theorem c7_forced_placeholders :
    (∀ (nr : Value) (kw : Kw) (row : Row),
       callFixedTarget nr kw = Except.ok row →
       row.get? 9 = Option.some [Value.str "--"]) ∧
    (∀ (nr : Value) (kw : Kw) (row : Row),
       callPassThrough nr kw = Except.ok row →
       row.get? 6 = Option.some [Value.str "--"] ∧
       row.get? 7 = Option.some [Value.str "--"] ∧
       row.get? 8 = Option.some [Value.str "--"] ∧
       row.get? 10 = Option.some [Value.str "--"]) ∧
    (∀ (nr : Value) (kw : Kw) (row : Row),
       callDiscard nr kw = Except.ok row →
       row.get? 6 = Option.some [Value.str "--"] ∧
       row.get? 7 = Option.some [Value.str "--"] ∧
       row.get? 8 = Option.some [Value.str "--"] ∧
       row.get? 10 = Option.some [Value.str "--"]) ∧
    (∀ (nr : Value) (kw : Kw) (row : Row),
       callDeny nr kw = Except.ok row →
       row.get? 6 = Option.some [Value.str "--"] ∧
       row.get? 7 = Option.some [Value.str "--"] ∧
       row.get? 8 = Option.some [Value.str "--"] ∧
       row.get? 10 = Option.some [Value.str "--"]) := by
  refine ⟨?_, ?_, ?_, ?_⟩
  · intro nr kw row hok
    simp only [callFixedTarget] at hok
    obtain ⟨⟨s1, hs⟩, ⟨s2, hd⟩⟩ := expected_fixed_target_rule_ok_ports hok
    rw [hs, hd, expected_fixed_target_rule_str] at hok
    injection hok with hrow
    subst hrow
    rfl
  · intro nr kw row hok
    simp only [callPassThrough] at hok
    obtain ⟨⟨s1, hs⟩, ⟨s2, hd⟩⟩ := expected_pass_through_rule_ok_ports hok
    rw [hs, hd, expected_pass_through_rule_str] at hok
    injection hok with hrow
    subst hrow
    exact ⟨rfl, rfl, rfl, rfl⟩
  · intro nr kw row hok
    simp only [callDiscard] at hok
    obtain ⟨⟨s1, hs⟩, ⟨s2, hd⟩⟩ := expected_discard_rule_ok_ports hok
    rw [hs, hd, expected_discard_rule_str] at hok
    injection hok with hrow
    subst hrow
    exact ⟨rfl, rfl, rfl, rfl⟩
  · intro nr kw row hok
    simp only [callDeny] at hok
    obtain ⟨⟨s1, hs⟩, ⟨s2, hd⟩⟩ := expected_deny_rule_ok_ports hok
    rw [hs, hd, expected_deny_rule_str] at hok
    injection hok with hrow
    subst hrow
    exact ⟨rfl, rfl, rfl, rfl⟩

theorem c7_witness :
    List.get? [[Value.str "1"], [Value.str "Fixed-Target"],
      [Value.str "all-IPv4:*"], [Value.str "all-IPv4:*"], [Value.str "All"],
      [Value.str "--"], [Value.str "None"], [Value.str "Normal"],
      [Value.str "Normal"], [Value.str "--"], [Value.str "No"],
      [Value.str "Enabled"]] 9 = Option.some [Value.str "--"] := by
  have h := c7_forced_placeholders.1 (Value.int 1)
    [("cloud_acceleration", Value.str "Full")]
    ([[Value.str "1"], [Value.str "Fixed-Target"],
      [Value.str "all-IPv4:*"], [Value.str "all-IPv4:*"], [Value.str "All"],
      [Value.str "--"], [Value.str "None"], [Value.str "Normal"],
      [Value.str "Normal"], [Value.str "--"], [Value.str "No"],
      [Value.str "Enabled"]] : Row) rfl
  exact h

theorem appendDescription_ok {kw : Kw} {res : Except String Row}
    {data : List Row} (h : appendDescription kw res = Except.ok data) :
    ∃ row, res = Except.ok row ∧ data.head? = Option.some row ∧
      ((kwLookup kw "description" = Option.none ∧ data = [row]) ∨
       (∃ d : String, kwLookup kw "description" =
           Option.some (Value.str d) ∧
         data = [row, [[Value.str ("Description: " ++ d)]]])) := by
  cases res with
  | error e => simp [appendDescription] at h
  | ok row =>
    unfold appendDescription at h
    cases hd : kwLookup kw "description" with
    | none =>
      rw [hd] at h
      injection h with h2
      subst h2
      exact ⟨row, rfl, rfl, Or.inl ⟨rfl, rfl⟩⟩
    | some v =>
      rw [hd] at h
      cases v with
      | none => simp at h
      | str d =>
        injection h with h2
        subst h2
        exact ⟨row, rfl, rfl, Or.inr ⟨d, rfl, rfl⟩⟩
      | int n => simp at h
      | bool b => simp at h

/-- C8: when the dispatch returns a result without error, the first
element of the returned sequence is the row built by the builder matching
the recognized rule type; when the parameters carry a description, exactly
one extra element follows, a nested single-cell row holding
`"Description: "` concatenated with the supplied text, and when the
description is absent the sequence holds only the row. -/
theorem c8_description_row (nr : Value) (kw : Kw) (log : List String)
    (data : List Row)
    (h : expected_rule nr kw = (log, Except.ok data)) :
    ∃ bld ∈ ruleBuilders, ∃ row : Row,
      kwLookup kw "type_of_rule" = Option.some (Value.str bld.1) ∧
      bld.2 nr kw = Except.ok row ∧
      data.head? = Option.some row ∧
      ((kwLookup kw "description" = Option.none ∧ data = [row]) ∨
       (∃ d : String, kwLookup kw "description" =
           Option.some (Value.str d) ∧
         data = [row, [[Value.str ("Description: " ++ d)]]])) := by
  unfold expected_rule at h
  cases hl : kwLookup kw "type_of_rule" with
  | none =>
    rw [hl] at h
    simp at h
  | some t =>
    rw [hl] at h
    simp only [] at h
    by_cases h1 : t = Value.str "Auto Discover"
    · rw [if_pos h1] at h
      have hdata : appendDescription kw (callAutoDiscover nr kw) =
          Except.ok data := congrArg Prod.snd h
      obtain ⟨row, hres, hhead, hdisj⟩ := appendDescription_ok hdata
      exact ⟨("Auto Discover", callAutoDiscover), by simp [ruleBuilders],
        row, by rw [h1], hres, hhead, hdisj⟩
    · rw [if_neg h1] at h
      by_cases h2 : t = Value.str "Fixed-Target"
      · rw [if_pos h2] at h
        have hdata : appendDescription kw (callFixedTarget nr kw) =
            Except.ok data := congrArg Prod.snd h
        obtain ⟨row, hres, hhead, hdisj⟩ := appendDescription_ok hdata
        exact ⟨("Fixed-Target", callFixedTarget), by simp [ruleBuilders],
          row, by rw [h2], hres, hhead, hdisj⟩
      · rw [if_neg h2] at h
        by_cases h3 : t = Value.str "Pass Through"
        · rw [if_pos h3] at h
          have hdata : appendDescription kw (callPassThrough nr kw) =
              Except.ok data := congrArg Prod.snd h
          obtain ⟨row, hres, hhead, hdisj⟩ := appendDescription_ok hdata
          exact ⟨("Pass Through", callPassThrough),
            by simp [ruleBuilders], row, by rw [h3], hres, hhead, hdisj⟩
        · rw [if_neg h3] at h
          by_cases h4 : t = Value.str "Discard"
          · rw [if_pos h4] at h
            have hdata : appendDescription kw (callDiscard nr kw) =
                Except.ok data := congrArg Prod.snd h
            obtain ⟨row, hres, hhead, hdisj⟩ := appendDescription_ok hdata
            exact ⟨("Discard", callDiscard), by simp [ruleBuilders], row,
              by rw [h4], hres, hhead, hdisj⟩
          · rw [if_neg h4] at h
            by_cases h5 : t = Value.str "Deny"
            · rw [if_pos h5] at h
              have hdata : appendDescription kw (callDeny nr kw) =
                  Except.ok data := congrArg Prod.snd h
              obtain ⟨row, hres, hhead, hdisj⟩ := appendDescription_ok hdata
              exact ⟨("Deny", callDeny), by simp [ruleBuilders], row,
                by rw [h5], hres, hhead, hdisj⟩
            · rw [if_neg h5] at h
              simp at h

theorem c8_witness :
    ∃ bld ∈ ruleBuilders, ∃ row : Row,
      kwLookup [("type_of_rule", Value.str "Deny"),
        ("description", Value.str "needs review")] "type_of_rule" =
        Option.some (Value.str bld.1) ∧
      bld.2 (Value.int 3) [("type_of_rule", Value.str "Deny"),
        ("description", Value.str "needs review")] = Except.ok row ∧
      List.head? [[[Value.str "3"], [Value.str "Deny"],
        [Value.str "all-IPv4:*"], [Value.str "all-IPv4:*"],
        [Value.str "All"], [Value.str "--"], [Value.str "--"],
        [Value.str "--"], [Value.str "--"], [Value.str "--"],
        [Value.str "--"], [Value.str "Enabled"]],
        [[Value.str "Description: needs review"]]] = Option.some row ∧
      ((kwLookup [("type_of_rule", Value.str "Deny"),
          ("description", Value.str "needs review")] "description" =
          Option.none ∧
        [[[Value.str "3"], [Value.str "Deny"], [Value.str "all-IPv4:*"],
          [Value.str "all-IPv4:*"], [Value.str "All"], [Value.str "--"],
          [Value.str "--"], [Value.str "--"], [Value.str "--"],
          [Value.str "--"], [Value.str "--"], [Value.str "Enabled"]],
          [[Value.str "Description: needs review"]]] = [row]) ∨
       (∃ d : String, kwLookup [("type_of_rule", Value.str "Deny"),
          ("description", Value.str "needs review")] "description" =
          Option.some (Value.str d) ∧
        [[[Value.str "3"], [Value.str "Deny"], [Value.str "all-IPv4:*"],
          [Value.str "all-IPv4:*"], [Value.str "All"], [Value.str "--"],
          [Value.str "--"], [Value.str "--"], [Value.str "--"],
          [Value.str "--"], [Value.str "--"], [Value.str "Enabled"]],
          [[Value.str "Description: needs review"]]] =
          [row, [[Value.str ("Description: " ++ d)]]])) :=
  c8_description_row (Value.int 3)
    [("type_of_rule", Value.str "Deny"),
     ("description", Value.str "needs review")] []
    [[[Value.str "3"], [Value.str "Deny"], [Value.str "all-IPv4:*"],
      [Value.str "all-IPv4:*"], [Value.str "All"], [Value.str "--"],
      [Value.str "--"], [Value.str "--"], [Value.str "--"],
      [Value.str "--"], [Value.str "--"], [Value.str "Enabled"]],
      [[Value.str "Description: needs review"]]] rfl

/-- C10: keyword parameters that no builder binds have no effect on the
built row: appending such extras to the bag leaves every builder's result
unchanged. -/
theorem c10_extra_keywords (nr : Value) (kw extras : Kw)
    (h : ∀ p ∈ extras, p.1 ∉ namedParameterKeys) :
    ∀ b ∈ ruleBuilders, b.2 nr (kw ++ extras) = b.2 nr kw := by
  have hx : ∀ k ∈ namedParameterKeys,
      kwLookup (kw ++ extras) k = kwLookup kw k := by
    intro k hk
    refine kwLookup_append (kwLookup_eq_none ?_)
    intro p hp hpk
    exact h p hp (by rw [hpk]; exact hk)
  have h01 := hx "type_of_rule" (by simp [namedParameterKeys])
  have h02 := hx "position" (by simp [namedParameterKeys])
  have h03 := hx "source_subnet" (by simp [namedParameterKeys])
  have h04 := hx "source_port" (by simp [namedParameterKeys])
  have h05 := hx "destination_subnet" (by simp [namedParameterKeys])
  have h06 := hx "destination_port" (by simp [namedParameterKeys])
  have h07 := hx "vlan_id" (by simp [namedParameterKeys])
  have h08 := hx "preoptimization_policy" (by simp [namedParameterKeys])
  have h09 := hx "optimization_policy" (by simp [namedParameterKeys])
  have h10 := hx "latency_optimization_policy" (by simp [namedParameterKeys])
  have h11 := hx "protocol" (by simp [namedParameterKeys])
  have h12 := hx "auto_kickoff" (by simp [namedParameterKeys])
  have h13 := hx "status" (by simp [namedParameterKeys])
  have h14 := hx "cloud_acceleration" (by simp [namedParameterKeys])
  intro b hb
  simp only [ruleBuilders, List.mem_cons, List.not_mem_nil, or_false] at hb
  rcases hb with rfl | rfl | rfl | rfl | rfl <;>
    simp only [callAutoDiscover, callFixedTarget, callPassThrough,
      callDiscard, callDeny, kwGet, h01, h02, h03, h04, h05, h06, h07,
      h08, h09, h10, h11, h12, h13, h14]

theorem c10_witness :
    callAutoDiscover Value.none
        ([("status", Value.str "Disabled")] ++
          [("color", Value.int 1), ("shape", Value.str "round")]) =
      callAutoDiscover Value.none [("status", Value.str "Disabled")] :=
  c10_extra_keywords Value.none [("status", Value.str "Disabled")]
    [("color", Value.int 1), ("shape", Value.str "round")] (by decide)
    ("Auto Discover", callAutoDiscover) (by simp [ruleBuilders])

end PageVerification
